import Mathlib

/-!
Verification of the SeatAdjuster vehicle app
(src/app/src/SeatAdjusterApp.cpp) against its specification.

The two event handlers are embedded as pure functions from their inputs
(the parsed request payload and the vehicle speed fetched at validation
time, respectively the seat-position extraction result) to an explicit
record of their side effects: telemetry reads, telemetry writes, bus
publishes, and the abort that escaped the handler, if any.

`jsonData` is const (line 82), so every `jsonData[...]` access at lines
89, 96 and 97 is nlohmann's const `operator[]`. On an object containing
the key it returns the mapped value; on an absent key (or a non-object)
it fails `JSON_ASSERT` — an assertion failure terminating the process
with no further effect. The embedding models that access as a checked
lookup (`Json.find`) whose `none` outcome aborts the handler with
`HandlerAbort.elemAccessAssert` and no publish, read or write; builds
compiled with assertions disabled make that access undefined, and no
theorem below asserts anything about such builds.
-/

/-- JSON values as the app handles them (nlohmann::json). An unparseable
payload is represented below by `Option.none` at the handler boundary:
`nlohmann::json::parse` throwing is the fatal-decode case. -/
inductive Json where
  | null
  | bool (b : Bool)
  | int (n : Int)
  | str (s : String)
  | arr (elems : List Json)
  | obj (fields : List (String × Json))

/- Constants from SeatAdjusterApp.cpp, lines 29-41. -/

def TOPIC_REQUEST : String := "seatadjuster/setPosition/request"

def TOPIC_REQUEST_Right : String := "seatadjuster/setPosition/requestRight"

def TOPIC_RESPONSE : String := "seatadjuster/setPosition/response"

def TOPIC_CURRENT_POSITION : String := "seatadjuster/currentPosition"

def JSON_FIELD_REQUEST_ID : String := "requestId"

def JSON_FIELD_POSITION : String := "position"

def JSON_FIELD_STATUS : String := "status"

def JSON_FIELD_MESSAGE : String := "message"

def JSON_FIELD_RESULT : String := "result"

def STATUS_OK : Int := 0

def STATUS_FAIL : Int := 1

/-- nlohmann `json::contains(key)`: true iff the value is an object and the
key is present (on any non-object value it returns false). -/
def Json.contains (j : Json) (k : String) : Bool :=
  match j with
  | .obj fields => fields.any (fun kv => kv.1 == k)
  | _ => false

/-- The lookup underlying nlohmann's const `operator[](key)`: `some v` when
the value is an object containing the key, `none` otherwise. `none` is the
region where the const accessor's `JSON_ASSERT` fails (asserting the value
is an object and the key is found); the handler below turns it into the
`elemAccessAssert` abort. -/
def Json.find (j : Json) (k : String) : Option Json :=
  match j with
  | .obj fields => (fields.find? (fun kv => kv.1 == k)).map Prod.snd
  | _ => none

/-- The ways one invocation of `onSetPositionRequestReceived` can abort
with no response: `parse` for `nlohmann::json::parse` throwing on an
unparseable payload (line 82); `typeError` for `get<int>()` throwing
`type_error` on a non-numeric value (lines 96-97); `elemAccessAssert` for
the const `operator[]` assertion failing on an absent key or a non-object
(lines 89, 96, 97) — in assertion-enabled builds the process terminates
there, and with assertions disabled the behavior is undefined. The first
two are the decode errors of the error taxonomy; the third is not a
decode error. -/
inductive HandlerAbort where
  | parse
  | typeError
  | elemAccessAssert

/-- nlohmann `get<int>()`: succeeds on integer values (and converts a
boolean, as nlohmann arithmetic conversion does); throws `type_error` on
anything else, in particular on `null` and strings. -/
def Json.getInt (j : Json) : Except HandlerAbort Int :=
  match j with
  | .int n => .ok n
  | .bool b => .ok (if b then 1 else 0)
  | _ => .error .typeError

/-- Observable effects of one invocation of the request handler:
how many Speed reads were issued, the list of SeatPosition set-commands,
the list of (topic, payload) bus publishes, and the abort that escaped
the handler, if any. -/
structure HandlerResult where
  speedReads : Nat
  writes : List Int
  published : List (String × Json)
  error : Option HandlerAbort

/-- `SeatAdjusterApp::onSetPositionRequestReceived` (lines 73-122),
embedded over the parse result of the payload (`none` = JSON parse threw)
and the Speed value the `Vehicle.Speed.get()->await()` call at line 101
returns. Control flow mirrors the source: parse, `contains(position)`
check, then in the missing-position branch the const `operator[]` access
to `requestId` (line 89) before the FAIL response, and otherwise the
const accesses and `get<int>` of `position` (line 96) and of `requestId`
(line 97) — each failing access or conversion aborts with no further
effect — then the Speed read and the `vehicleSpeed == 0` branch deciding
between the seat write with an OK response and the FAIL response. -/
def onSetPositionRequestReceived (vehicleSpeed : Int) (payload : Option Json) :
    HandlerResult :=
  match payload with
  | none => { speedReads := 0, writes := [], published := [], error := some .parse }
  | some jsonData =>
    if !(jsonData.contains JSON_FIELD_POSITION) then
      match jsonData.find JSON_FIELD_REQUEST_ID with
      | none =>
        { speedReads := 0, writes := [], published := [],
          error := some .elemAccessAssert }
      | some requestIdJson =>
        let errorMsg := "No position specified"
        let respData := Json.obj
          [(JSON_FIELD_REQUEST_ID, requestIdJson),
           (JSON_FIELD_STATUS, Json.int STATUS_FAIL),
           (JSON_FIELD_MESSAGE, Json.str errorMsg)]
        { speedReads := 0, writes := [], published := [(TOPIC_RESPONSE, respData)],
          error := none }
    else
      match jsonData.find JSON_FIELD_POSITION with
      | none =>
        { speedReads := 0, writes := [], published := [],
          error := some .elemAccessAssert }
      | some positionJson =>
        match positionJson.getInt with
        | .error e =>
          { speedReads := 0, writes := [], published := [], error := some e }
        | .ok desiredSeatPosition =>
          match jsonData.find JSON_FIELD_REQUEST_ID with
          | none =>
            { speedReads := 0, writes := [], published := [],
              error := some .elemAccessAssert }
          | some requestIdJson =>
            match requestIdJson.getInt with
            | .error e =>
              { speedReads := 0, writes := [], published := [], error := some e }
            | .ok requestId =>
              if vehicleSpeed = 0 then
                let respData := Json.obj
                  [(JSON_FIELD_REQUEST_ID, Json.int requestId),
                   (JSON_FIELD_RESULT, Json.obj
                     [(JSON_FIELD_STATUS, Json.int STATUS_OK),
                      (JSON_FIELD_MESSAGE,
                       Json.str ("Set Seat position to: "
                         ++ toString desiredSeatPosition))])]
                { speedReads := 1, writes := [desiredSeatPosition],
                  published := [(TOPIC_RESPONSE, respData)], error := none }
              else
                let errorMsg := "Not allowed to move seat because vehicle speed is "
                  ++ toString vehicleSpeed ++ " and not 0"
                let respData := Json.obj
                  [(JSON_FIELD_REQUEST_ID, Json.int requestId),
                   (JSON_FIELD_RESULT, Json.obj
                     [(JSON_FIELD_STATUS, Json.int STATUS_FAIL),
                      (JSON_FIELD_MESSAGE, Json.str errorMsg)])]
                { speedReads := 1, writes := [],
                  published := [(TOPIC_RESPONSE, respData)], error := none }

/-- Observable effects of one invocation of the position-mirror handler:
publishes and the number of warnings logged. The handler has no error
component: the try/catch at lines 128-138 keeps every fault inside. -/
structure MirrorResult where
  published : List (String × Json)
  warnings : Nat

/-- `SeatAdjusterApp::onSeatPositionChanged` (lines 124-142), embedded over
the result of extracting the seat-position value from the reply
(`Except.error msg` = the extraction threw, `msg` the exception text). -/
def onSeatPositionChanged (extracted : Except String Int) : MirrorResult :=
  match extracted with
  | .ok seatPositionValue =>
    { published := [(TOPIC_CURRENT_POSITION,
        Json.obj [(JSON_FIELD_POSITION, Json.int seatPositionValue)])],
      warnings := 0 }
  | .error msg =>
    { published := [(TOPIC_CURRENT_POSITION,
        Json.obj [(JSON_FIELD_STATUS, Json.int STATUS_FAIL),
                  (JSON_FIELD_MESSAGE, Json.str msg)])],
      warnings := 1 }

/-- The pub/sub topic subscriptions registered by `onStart` (lines 60-70):
both the primary request topic and the alias topic route to
`onSetPositionRequestReceived`. -/
def topicSubscriptions : List (String × (Int → Option Json → HandlerResult)) :=
  [(TOPIC_REQUEST, onSetPositionRequestReceived),
   (TOPIC_REQUEST_Right, onSetPositionRequestReceived)]

/-- Delivering a payload on a topic runs every handler `onStart` registered
for that topic. -/
def deliverTopicMessage (topic : String) (vehicleSpeed : Int)
    (payload : Option Json) : List HandlerResult :=
  (topicSubscriptions.filter (fun s => s.1 == topic)).map
    (fun s => s.2 vehicleSpeed payload)

/-- C5: an unparseable payload produces no response, no telemetry read and
no telemetry write; the parse error escapes to the error path. -/
theorem malformed_payload_silent (vehicleSpeed : Int) :
    onSetPositionRequestReceived vehicleSpeed none =
      { speedReads := 0, writes := [], published := [],
        error := some HandlerAbort.parse } := rfl

/-- C3 counterexample: the empty object decodes as JSON and has no
`position` field, yet the handler publishes no response at all — the const
element access to the absent `requestId` at line 89 fails its assertion
before the FAIL response is built. -/
theorem missing_position_without_requestId_cex :
    (onSetPositionRequestReceived 0 (some (Json.obj []))).published = [] ∧
    (onSetPositionRequestReceived 0 (some (Json.obj []))).error =
      some HandlerAbort.elemAccessAssert := by
  constructor <;> rfl

/-- C3 amended: a payload that decodes as JSON, has no `position` field
and does contain a `requestId` field gets one FAIL response with message
exactly "No position specified" echoing the `requestId` value verbatim,
with no Speed read and no SeatPosition write; if `requestId` is also
absent, the element-access assertion fails and nothing is published. -/
theorem missing_position_fail_response (vehicleSpeed : Int) (j : Json)
    (requestIdJson : Json)
    (hcp : j.contains JSON_FIELD_POSITION = false)
    (hrid : Json.find j JSON_FIELD_REQUEST_ID = some requestIdJson) :
    onSetPositionRequestReceived vehicleSpeed (some j) =
      { speedReads := 0, writes := [],
        published := [(TOPIC_RESPONSE, Json.obj
          [(JSON_FIELD_REQUEST_ID, requestIdJson),
           (JSON_FIELD_STATUS, Json.int STATUS_FAIL),
           (JSON_FIELD_MESSAGE, Json.str "No position specified")])],
        error := none } := by
  simp [onSetPositionRequestReceived, hcp, hrid]

/-- C3 witness: a request carrying only requestId 1, at speed 5. -/
theorem missing_position_fail_response_witness :
    onSetPositionRequestReceived 5
      (some (Json.obj [(JSON_FIELD_REQUEST_ID, Json.int 1)])) =
      { speedReads := 0, writes := [],
        published := [(TOPIC_RESPONSE, Json.obj
          [(JSON_FIELD_REQUEST_ID, Json.int 1),
           (JSON_FIELD_STATUS, Json.int STATUS_FAIL),
           (JSON_FIELD_MESSAGE, Json.str "No position specified")])],
        error := none } :=
  missing_position_fail_response 5
    (Json.obj [(JSON_FIELD_REQUEST_ID, Json.int 1)]) (Json.int 1)
    (by rfl) (by rfl)

/-- C4 counterexample: the empty object decodes as JSON and is not the
fatal-decode case (no parse failure, no failed integer conversion), yet
the handler publishes nothing — it aborts on the element-access assertion
at line 89. -/
theorem empty_object_aborts_cex :
    (onSetPositionRequestReceived 3 (some (Json.obj []))).published.length = 0 ∧
    (onSetPositionRequestReceived 3 (some (Json.obj []))).error =
      some HandlerAbort.elemAccessAssert ∧
    HandlerAbort.elemAccessAssert ≠ HandlerAbort.parse ∧
    HandlerAbort.elemAccessAssert ≠ HandlerAbort.typeError :=
  ⟨rfl, rfl,
   fun h => HandlerAbort.noConfusion h,
   fun h => HandlerAbort.noConfusion h⟩

/-- C4 amended: whenever the handler runs on a decoded payload and
completes without aborting (no decode error and no element-access
assertion failure), it publishes exactly one message, to the response
topic, with at most one Speed read and at most one SeatPosition write. -/
theorem decoded_request_publishes_once (vehicleSpeed : Int) (j : Json)
    (h : (onSetPositionRequestReceived vehicleSpeed (some j)).error = none) :
    (onSetPositionRequestReceived vehicleSpeed (some j)).published.map Prod.fst
        = [TOPIC_RESPONSE] ∧
    (onSetPositionRequestReceived vehicleSpeed (some j)).speedReads ≤ 1 ∧
    (onSetPositionRequestReceived vehicleSpeed (some j)).writes.length ≤ 1 := by
  cases hcp : j.contains JSON_FIELD_POSITION with
  | false =>
    cases hfr : Json.find j JSON_FIELD_REQUEST_ID with
    | none => simp [onSetPositionRequestReceived, hcp, hfr] at h
    | some requestIdJson => simp [onSetPositionRequestReceived, hcp, hfr]
  | true =>
    cases hfp : Json.find j JSON_FIELD_POSITION with
    | none => simp [onSetPositionRequestReceived, hcp, hfp] at h
    | some positionJson =>
      cases hgp : positionJson.getInt with
      | error e => simp [onSetPositionRequestReceived, hcp, hfp, hgp] at h
      | ok p =>
        cases hfr : Json.find j JSON_FIELD_REQUEST_ID with
        | none => simp [onSetPositionRequestReceived, hcp, hfp, hgp, hfr] at h
        | some requestIdJson =>
          cases hgr : requestIdJson.getInt with
          | error e =>
            simp [onSetPositionRequestReceived, hcp, hfp, hgp, hfr, hgr] at h
          | ok r =>
            by_cases hs : vehicleSpeed = 0 <;>
              simp [onSetPositionRequestReceived, hcp, hfp, hgp, hfr, hgr, hs]

/-- C4 witness: the speed-permitted branch at requestId 7, position 3. -/
theorem decoded_request_publishes_once_witness :
    (onSetPositionRequestReceived 0
      (some (Json.obj [(JSON_FIELD_REQUEST_ID, Json.int 7),
                       (JSON_FIELD_POSITION, Json.int 3)]))).published.map Prod.fst
        = [TOPIC_RESPONSE] ∧
    (onSetPositionRequestReceived 0
      (some (Json.obj [(JSON_FIELD_REQUEST_ID, Json.int 7),
                       (JSON_FIELD_POSITION, Json.int 3)]))).speedReads ≤ 1 ∧
    (onSetPositionRequestReceived 0
      (some (Json.obj [(JSON_FIELD_REQUEST_ID, Json.int 7),
                       (JSON_FIELD_POSITION, Json.int 3)]))).writes.length ≤ 1 :=
  decoded_request_publishes_once 0
    (Json.obj [(JSON_FIELD_REQUEST_ID, Json.int 7),
               (JSON_FIELD_POSITION, Json.int 3)]) (by rfl)

/-- C7: every SeatPosition telemetry event yields exactly one broadcast
publish: on a successfully extracted value the payload is
position-to-value; on an extraction failure the payload carries status
FAIL and the diagnostic text, and one warning is logged. The handler is a
total function, so no fault escapes it. -/
theorem mirror_broadcasts_once (extracted : Except String Int) :
    (onSeatPositionChanged extracted).published.map Prod.fst =
        [TOPIC_CURRENT_POSITION] ∧
    (∀ v, extracted = Except.ok v →
      onSeatPositionChanged extracted =
        { published := [(TOPIC_CURRENT_POSITION,
            Json.obj [(JSON_FIELD_POSITION, Json.int v)])],
          warnings := 0 }) ∧
    (∀ msg, extracted = Except.error msg →
      onSeatPositionChanged extracted =
        { published := [(TOPIC_CURRENT_POSITION,
            Json.obj [(JSON_FIELD_STATUS, Json.int STATUS_FAIL),
                      (JSON_FIELD_MESSAGE, Json.str msg)])],
          warnings := 1 }) := by
  cases extracted <;> simp [onSeatPositionChanged]

/-- C7 witness: a SeatPosition update with value 42 broadcasts the payload
mapping position to 42. -/
theorem mirror_broadcasts_once_witness :
    onSeatPositionChanged (Except.ok 42) =
      { published := [(TOPIC_CURRENT_POSITION,
          Json.obj [(JSON_FIELD_POSITION, Json.int 42)])],
        warnings := 0 } :=
  (mirror_broadcasts_once (Except.ok 42)).2.1 42 rfl

/-- C9: the primary request topic and the alias topic are wired to the same
handler, so delivering any payload at any speed on either topic runs
exactly one invocation of `onSetPositionRequestReceived` and produces
identical effects. -/
theorem alias_topic_same_handler (vehicleSpeed : Int) (payload : Option Json) :
    deliverTopicMessage TOPIC_REQUEST vehicleSpeed payload =
        [onSetPositionRequestReceived vehicleSpeed payload] ∧
    deliverTopicMessage TOPIC_REQUEST_Right vehicleSpeed payload =
        [onSetPositionRequestReceived vehicleSpeed payload] := by
  constructor <;> rfl

/-- C10 counterexample: at payload with `position` 3 and no `requestId`
the handler does abort before any telemetry with no response, but with
the element-access assertion failure, which is neither of the decode
errors (`parse`, `typeError`) — not the decode-error abort the claim
asserts for an absent `requestId`. -/
theorem absent_requestId_not_decode_error_cex :
    (onSetPositionRequestReceived 4
      (some (Json.obj [(JSON_FIELD_POSITION, Json.int 3)]))).error =
        some HandlerAbort.elemAccessAssert ∧
    HandlerAbort.elemAccessAssert ≠ HandlerAbort.parse ∧
    HandlerAbort.elemAccessAssert ≠ HandlerAbort.typeError ∧
    (onSetPositionRequestReceived 4
      (some (Json.obj [(JSON_FIELD_POSITION, Json.int 3)]))).published = [] :=
  ⟨rfl,
   fun h => HandlerAbort.noConfusion h,
   fun h => HandlerAbort.noConfusion h,
   rfl⟩

/-- C10 amended: with `position` present, the handler aborts before any
Speed read, any write and any publish when a field fails to decode — with
the `type_error` decode abort for a present non-integer `position` or
`requestId`, and with the element-access assertion failure for an absent
`requestId`; conversely a Speed read only ever happens after both fields
were successfully read as integers. -/
theorem decode_error_precedes_telemetry (vehicleSpeed : Int) (j : Json)
    (hcp : j.contains JSON_FIELD_POSITION = true) :
    (∀ pj, Json.find j JSON_FIELD_POSITION = some pj →
        pj.getInt = Except.error HandlerAbort.typeError →
        onSetPositionRequestReceived vehicleSpeed (some j) =
          { speedReads := 0, writes := [], published := [],
            error := some HandlerAbort.typeError }) ∧
    (∀ pj p rj, Json.find j JSON_FIELD_POSITION = some pj →
        pj.getInt = Except.ok p →
        Json.find j JSON_FIELD_REQUEST_ID = some rj →
        rj.getInt = Except.error HandlerAbort.typeError →
        onSetPositionRequestReceived vehicleSpeed (some j) =
          { speedReads := 0, writes := [], published := [],
            error := some HandlerAbort.typeError }) ∧
    (∀ pj p, Json.find j JSON_FIELD_POSITION = some pj →
        pj.getInt = Except.ok p →
        Json.find j JSON_FIELD_REQUEST_ID = none →
        onSetPositionRequestReceived vehicleSpeed (some j) =
          { speedReads := 0, writes := [], published := [],
            error := some HandlerAbort.elemAccessAssert }) ∧
    ((onSetPositionRequestReceived vehicleSpeed (some j)).speedReads ≠ 0 →
        ∃ pj p rj r, Json.find j JSON_FIELD_POSITION = some pj ∧
          pj.getInt = Except.ok p ∧
          Json.find j JSON_FIELD_REQUEST_ID = some rj ∧
          rj.getInt = Except.ok r) := by
  refine ⟨?_, ?_, ?_, ?_⟩
  · intro pj hfp hgp
    simp [onSetPositionRequestReceived, hcp, hfp, hgp]
  · intro pj p rj hfp hgp hfr hgr
    simp [onSetPositionRequestReceived, hcp, hfp, hgp, hfr, hgr]
  · intro pj p hfp hgp hfr
    simp [onSetPositionRequestReceived, hcp, hfp, hgp, hfr]
  · intro hreads
    cases hfp : Json.find j JSON_FIELD_POSITION with
    | none =>
      exact absurd (by simp [onSetPositionRequestReceived, hcp, hfp]) hreads
    | some pj =>
      cases hgp : pj.getInt with
      | error e =>
        exact absurd (by simp [onSetPositionRequestReceived, hcp, hfp, hgp])
          hreads
      | ok p =>
        cases hfr : Json.find j JSON_FIELD_REQUEST_ID with
        | none =>
          exact absurd
            (by simp [onSetPositionRequestReceived, hcp, hfp, hgp, hfr]) hreads
        | some rj =>
          cases hgr : rj.getInt with
          | error e =>
            exact absurd
              (by simp [onSetPositionRequestReceived, hcp, hfp, hgp, hfr, hgr])
              hreads
          | ok r => exact ⟨pj, p, rj, r, rfl, hgp, rfl, hgr⟩

/-- C10 witness: a payload whose `position` is the string "x" aborts with
the type-error decode abort, no Speed read, no write and no publish. -/
theorem decode_error_precedes_telemetry_witness :
    onSetPositionRequestReceived 5
      (some (Json.obj [(JSON_FIELD_POSITION, Json.str "x")])) =
      { speedReads := 0, writes := [], published := [],
        error := some HandlerAbort.typeError } :=
  (decode_error_precedes_telemetry 5
      (Json.obj [(JSON_FIELD_POSITION, Json.str "x")]) (by rfl)).1
    (Json.str "x") (by rfl) (by rfl)
